import Mathlib

/-!
Token-caching authorized HTTP client of the goshorten demo.

A shallow embedding of `client.go` (`accessToken`, `authorizedClient`,
`authorizedTransport.RoundTrip`) and of the `shorten` handler and the
`appengineHandler` wrapper of `serviceaccount.go`.

Conventions of the embedding.

* Go structs are values: `newReq := *req` copies every field.  Go maps are
  references: a value of type `http.Header` is either `nil` or the address of
  a map whose contents live in the store `World.maps`.
* The platform (memcache, the identity service, the clock, urlfetch) is
  external.  Each facility is a field of `Context`, a function on a hidden
  external state `σ`; the program threads that state explicitly.
* Every call the program makes to an external facility is appended to
  `World.trace`, so that "called exactly once" and "never called" are
  statements about the trace.
* A Go run-time panic is the `Except.error` result of a step.
* `authorizedTransport.RoundTrip` is the method on a transport, a wrapped
  sender and a request that are not nil; `authorizedTransportRef.RoundTrip`
  is the same method with the nil pointers and the nil interface value kept,
  and agrees with the former where nothing is nil.
* Durations are `int64` values: `Time.Sub` gives the difference of two
  instants when it fits and the nearest bound otherwise.
-/

namespace Goshorten

/-! ## Go values -/

/-- Go `time.Time`: an instant, as a count of nanoseconds from the Unix epoch.
Every instant Go can represent is such an integer. -/
abbrev Time := Int

/-- Go `time.Duration`: an `int64` count of nanoseconds. -/
abbrev Duration := Int

/-- Go `minDuration`, the least `int64`. -/
def minDuration : Duration := -9223372036854775808

/-- Go `maxDuration`, the greatest `int64`. -/
def maxDuration : Duration := 9223372036854775807

/-- The `int64` that two's complement arithmetic gives for an integer: the
representative of `x` modulo `2^64` between `minDuration` and `maxDuration`. -/
def wrapInt64 (x : Int) : Int :=
  (x + 9223372036854775808) % 18446744073709551616 - 9223372036854775808

/-- Go `t.Sub(u)`: the duration `t - u`, computed in `int64`; when adding it
back to `u` does not give `t` the difference is out of range and the result is
`minDuration` if `t` is before `u`, `maxDuration` otherwise. -/
def Time.Sub (t u : Time) : Duration :=
  let d := wrapInt64 (t - u)
  if u + d = t then d
  else if t < u then minDuration
  else maxDuration

/-- Go `error` value, identified by the text its `Error()` method returns. -/
structure GoError where
  Error : String
deriving DecidableEq, Repr

/-- Go `[]byte`.  A Go `string` is a sequence of bytes and the conversions
`[]byte(s)` and `string(b)` keep the bytes, so a slice is represented by the
string that holds its bytes. -/
structure Bytes where
  data : String
deriving DecidableEq, Repr

/-- Go conversion `[]byte(s)`. -/
def bytesOf (s : String) : Bytes := ⟨s⟩

/-- Go conversion `string(b)`. -/
def stringOf (b : Bytes) : String := b.data

/-- Go `memcache.Item`, with the three fields the program sets or reads. -/
structure Item where
  Key : String
  Value : Bytes
  Expiration : Duration
deriving DecidableEq, Repr

/-- Contents of a Go `map[string][]string`: a partial map from keys to value lists. -/
abbrev MapContents := String → Option (List String)

/-- Go `http.Header` value: `none` is the nil map, `some a` refers to the map
stored at address `a`. -/
abbrev Header := Option Nat

/-- Go `http.Request`, with the fields that matter to a shallow copy: plain
values and the two reference fields `Header` (a map) and `Body` (a reader handle). -/
structure Request where
  Method : String
  URL : String
  Header : Header
  Body : Option Nat
deriving DecidableEq, Repr

/-- Go `http.Response`: status code and the text its body stream delivers. -/
structure Response where
  StatusCode : Int
  Body : String
deriving DecidableEq, Repr

/-- Run-time faults of the embedded code. -/
inductive Panic where
  | nilMapAssignment
  | nilDereference
deriving DecidableEq, Repr

/-- Calls to external facilities, as recorded in the trace.  `roundTrip req maps`
is one invocation of a wrapped sender, with the request handed over and the map
store at the moment of the call. -/
inductive Event where
  | memcacheGet (key : String)
  | appengineAccessToken (scope : String)
  | timeNow
  | memcacheSet (item : Item)
  | roundTrip (req : Request) (maps : Nat → MapContents)
  | Infof (text : String)
  | Errorf (format : String)
  | bodyClose

/-- Program-visible state: the hidden state of the external services, the
store of Go maps, and the trace of external calls (oldest first). -/
structure World (σ : Type) where
  ext : σ
  maps : Nat → MapContents
  trace : List Event

/-- Go `urlfetch.Transport` configuration (its `Context` field is the ambient context). -/
structure urlfetch.Transport where
  Deadline : Duration
  AllowInvalidServerCertificate : Bool
deriving DecidableEq, Repr

/-- The platform behind an `appengine.Context`: memcache, the identity
service, the clock and the urlfetch sender, each a function on the external state. -/
structure Context (σ : Type) where
  memcacheGet : String → σ → Except GoError Item × σ
  memcacheSet : Item → σ → Option GoError × σ
  AccessToken : String → σ → Except GoError (String × Time) × σ
  Now : σ → Time × σ
  urlfetch : urlfetch.Transport → Request → (Nat → MapContents) → σ →
    (Option Response × Option GoError) × σ

/-- Go `http.RoundTripper`: an arbitrary request sender.  It receives the
request and may read the map store; it returns a `(response, error)` pair. -/
structure RoundTripper (σ : Type) where
  RoundTrip : Request → (Nat → MapContents) → σ → (Option Response × Option GoError) × σ

/-- The `http.RoundTripper` that a `urlfetch.Transport` value implements. -/
def urlfetch.Transport.roundTripper {σ : Type} (c : Context σ) (t : urlfetch.Transport) :
    RoundTripper σ :=
  ⟨c.urlfetch t⟩

/-- Go `type authorizedTransport struct { transport http.RoundTripper; token string }`. -/
structure authorizedTransport (σ : Type) where
  transport : RoundTripper σ
  token : String

/-- Go `http.Client`, with its `Transport` field. -/
structure Client (σ : Type) where
  Transport : authorizedTransport σ

/-! ## External calls, with trace recording -/

/-- Call `memcache.Get(c, key)`. -/
def memcache.Get {σ : Type} (c : Context σ) (key : String) (w : World σ) :
    Except GoError Item × World σ :=
  let r := c.memcacheGet key w.ext
  (r.1, { w with ext := r.2, trace := w.trace ++ [Event.memcacheGet key] })

/-- Call `memcache.Set(c, item)`. -/
def memcache.Set {σ : Type} (c : Context σ) (item : Item) (w : World σ) :
    Option GoError × World σ :=
  let r := c.memcacheSet item w.ext
  (r.1, { w with ext := r.2, trace := w.trace ++ [Event.memcacheSet item] })

/-- Call `appengine.AccessToken(c, scope)`. -/
def appengine.AccessToken {σ : Type} (c : Context σ) (scope : String) (w : World σ) :
    Except GoError (String × Time) × World σ :=
  let r := c.AccessToken scope w.ext
  (r.1, { w with ext := r.2, trace := w.trace ++ [Event.appengineAccessToken scope] })

/-- Call `time.Now()`. -/
def time.Now {σ : Type} (c : Context σ) (w : World σ) : Time × World σ :=
  let r := c.Now w.ext
  (r.1, { w with ext := r.2, trace := w.trace ++ [Event.timeNow] })

/-- Go `h.Set(key, value)` on an `http.Header`: the map assignment
`h[key] = []string{value}` (the key `"Authorization"` is already in canonical
MIME form).  Assigning into the nil map panics. -/
def Header.Set {σ : Type} (h : Header) (key value : String) (w : World σ) :
    Except Panic Unit × World σ :=
  match h with
  | none => (.error Panic.nilMapAssignment, w)
  | some a =>
    let m : MapContents := fun k => if k = key then some [value] else w.maps a k
    (.ok (), { w with maps := Function.update w.maps a m })

/-! ## client.go -/

/-- Go `accessToken(c, scope)`: returns an access token for the scope and caches it. -/
def accessToken {σ : Type} (c : Context σ) (scope : String) (w : World σ) :
    (String × Option GoError) × World σ :=
  match memcache.Get c "token" w with
  | (.ok token, w1) => ((stringOf token.Value, none), w1)
  | (.error _, w1) =>
    match appengine.AccessToken c scope w1 with
    | (.error err, w2) => (("", some err), w2)
    | (.ok (tok, expiry), w2) =>
      let (now, w3) := time.Now c w2
      let (_, w4) := memcache.Set c
        { Key := "token", Value := bytesOf tok, Expiration := Time.Sub expiry now } w3
      ((tok, none), w4)

/-- Go `authorizedClient(c, scope)`: an `http.Client` authorized for the scope. -/
def authorizedClient {σ : Type} (c : Context σ) (scope : String) (w : World σ) :
    (Option (Client σ) × Option GoError) × World σ :=
  match accessToken c scope w with
  | ((_, some err), w1) => ((none, some err), w1)
  | ((tok, none), w1) =>
    ((some { Transport :=
              { transport := urlfetch.Transport.roundTripper c
                  { Deadline := 0, AllowInvalidServerCertificate := false },
                token := tok } }, none), w1)

/-- Go `(t *authorizedTransport) RoundTrip(req)`: copy the request struct, set
the `Authorization` header through the copy, hand the copy to the wrapped sender. -/
def authorizedTransport.RoundTrip {σ : Type} (t : authorizedTransport σ) (req : Request)
    (w : World σ) : Except Panic (Option Response × Option GoError) × World σ :=
  let newReq := req
  match Header.Set newReq.Header "Authorization" ("OAuth " ++ t.token) w with
  | (.error p, w1) => (.error p, w1)
  | (.ok (), w1) =>
    let r := t.transport.RoundTrip newReq w1.maps w1.ext
    (.ok r.1, { w1 with ext := r.2, trace := w1.trace ++ [Event.roundTrip newReq w1.maps] })

/-- What a Go `*authorizedTransport` points to when the nil cases are kept: the
field `transport` is an interface value and may be nil. -/
structure authorizedTransportRef (σ : Type) where
  transport : Option (RoundTripper σ)
  token : String

/-- Go `(t *authorizedTransport) RoundTrip(req *http.Request)` on the pointers
themselves, `none` being nil.  Line by line: `newReq := *req` dereferences
`req`; the argument `"OAuth "+t.token` dereferences `t`; `Header.Set` assigns
into the header map; `t.transport.RoundTrip(&newReq)` calls through the
interface value, which faults when it is nil. -/
def authorizedTransportRef.RoundTrip {σ : Type} (t : Option (authorizedTransportRef σ))
    (req : Option Request) (w : World σ) :
    Except Panic (Option Response × Option GoError) × World σ :=
  match req with
  | none => (.error Panic.nilDereference, w)
  | some r =>
    let newReq := r
    match t with
    | none => (.error Panic.nilDereference, w)
    | some tv =>
      match Header.Set newReq.Header "Authorization" ("OAuth " ++ tv.token) w with
      | (.error p, w1) => (.error p, w1)
      | (.ok (), w1) =>
        match tv.transport with
        | none => (.error Panic.nilDereference, w1)
        | some sender =>
          let res := sender.RoundTrip newReq w1.maps w1.ext
          (.ok res.1,
            { w1 with ext := res.2, trace := w1.trace ++ [Event.roundTrip newReq w1.maps] })

/-! ## Observations on traces -/

/-- The scopes of the calls made to the identity facility. -/
def identityCalls : List Event → List String
  | [] => []
  | Event.appengineAccessToken scope :: es => scope :: identityCalls es
  | _ :: es => identityCalls es

/-- The items of the cache writes. -/
def cacheWrites : List Event → List Item
  | [] => []
  | Event.memcacheSet item :: es => item :: cacheWrites es
  | _ :: es => cacheWrites es

/-- The values a request carries under a header name, read in a given map store. -/
def headerValues (req : Request) (maps : Nat → MapContents) (key : String) :
    Option (List String) :=
  match req.Header with
  | none => none
  | some a => maps a key

/-! ## serviceaccount.go -/

/-- Element of the Go field `response.Error.Errors`. -/
structure ErrorItem where
  Reason : String
  Message : String
  Location : String
deriving DecidableEq, Repr

/-- The Go struct field `response.Error`. -/
structure ErrorBody where
  Errors : List ErrorItem
  Code : Int
  Message : String
deriving DecidableEq, Repr

/-- Go `type response struct`: the JSON body of URL shortener API responses. -/
structure response where
  Error : ErrorBody
deriving DecidableEq, Repr

/-- Go `type request struct`: the JSON payload of POST requests to the API. -/
structure request where
  LongUrl : String
deriving DecidableEq, Repr

/-- The incoming `*http.Request` of a handler: its method and its form values. -/
structure IncomingRequest where
  Method : String
  Form : String → String

/-- Go `r.FormValue(key)`. -/
def IncomingRequest.FormValue (r : IncomingRequest) (key : String) : String := r.Form key

/-- A call made on the `http.ResponseWriter` of a handler. -/
inductive WriterCall where
  | Redirect (url : String) (code : Nat)
  | Error (text : String) (code : Nat)
deriving DecidableEq, Repr

/-- Go `http.ResponseWriter`, observed as the calls made on it so far (oldest first). -/
abbrev ResponseWriter := List WriterCall

/-- Go `http.StatusInternalServerError`. -/
def http.StatusInternalServerError : Nat := 500

/-- Go `http.Redirect(w, r, url, code)`: replies with a redirect to `url`. -/
def http.Redirect (w : ResponseWriter) (_r : IncomingRequest) (url : String) (code : Nat) :
    ResponseWriter :=
  w ++ [WriterCall.Redirect url code]

/-- Go `http.Error(w, text, code)`: replies to the request with the status
`code` and the plain-text body `text`, which it writes as one line. -/
def http.Error (w : ResponseWriter) (text : String) (code : Nat) : ResponseWriter :=
  w ++ [WriterCall.Error text code]

/-- Library functions of the handlers that are outside the repository:
`json.Marshal`, `(*http.Client).Post` and `json.NewDecoder(body).Decode`. -/
structure Library (σ : Type) where
  jsonMarshal : request → Except GoError Bytes
  clientPost : Client σ → String → String → Bytes → World σ → Except GoError Response × World σ
  jsonDecode : String → Except GoError response

/-- Go `%v` of one element of `Errors`: the fields between braces, separated by spaces. -/
def fmtErrorItem (e : ErrorItem) : String :=
  "\x7b" ++ e.Reason ++ " " ++ e.Message ++ " " ++ e.Location ++ "\x7d"

/-- Go `%v` of the slice `Errors`: the elements between brackets, separated by spaces. -/
def fmtErrors (es : List ErrorItem) : String :=
  "[" ++ " ".intercalate (es.map fmtErrorItem) ++ "]"

/-- Go `%v` of `result.Error`: `{Errors Code Message}`. -/
def fmtErrorBody (e : ErrorBody) : String :=
  "\x7b" ++ fmtErrors e.Errors ++ " " ++ toString e.Code ++ " " ++ e.Message ++ "\x7d"

/-- Go `%v` of a `response` value. -/
def fmtResponse (r : response) : String :=
  "\x7b" ++ fmtErrorBody r.Error ++ "\x7d"

/-- Go `fmt.Errorf(context + "%v", arg)`, with the argument already formatted
by `%v`: the error whose text is the context followed by the argument. -/
def fmt.Errorf (context : String) (arg : String) : GoError :=
  ⟨context ++ arg⟩

/-- Append one event to the trace. -/
def World.record {σ : Type} (w : World σ) (e : Event) : World σ :=
  { w with trace := w.trace ++ [e] }

/-- Go `shorten(c, w, r)`: shortens a new url and redirects to the main page.
The deferred `resp.Body.Close()` runs on every return after a successful post. -/
def shorten {σ : Type} (lib : Library σ) (c : Context σ) (w : ResponseWriter)
    (r : IncomingRequest) (st : World σ) :
    Except Panic (Option GoError) × ResponseWriter × World σ :=
  match authorizedClient c "https://www.googleapis.com/auth/urlshortener" st with
  | ((_, some err), st1) =>
    (.ok (some (fmt.Errorf "error creating authorized client: " err.Error)), w, st1)
  | ((none, none), st1) => (.error Panic.nilDereference, w, st1)
  | ((some client, none), st1) =>
    match lib.jsonMarshal { LongUrl := r.FormValue "url" } with
    | .error err => (.ok (some (fmt.Errorf "error encoding JSON body: " err.Error)), w, st1)
    | .ok body =>
      match lib.clientPost client "https://www.googleapis.com/urlshortener/v1/url"
          "application/json" body st1 with
      | (.error err, st2) => (.ok (some (fmt.Errorf "error posting url: " err.Error)), w, st2)
      | (.ok resp, st2) =>
        match lib.jsonDecode resp.Body with
        | .error err =>
          (.ok (some (fmt.Errorf "error decoding json body: " err.Error)), w,
            st2.record Event.bodyClose)
        | .ok result =>
          let st3 := st2.record (Event.Infof ("urlshortener API response: " ++ fmtResponse result))
          if result.Error.Code ≠ 0 then
            (.ok (some (fmt.Errorf "urlshortener API error: " (fmtErrorBody result.Error))), w,
              st3.record Event.bodyClose)
          else
            (.ok none, http.Redirect w r "/" 303, st3.record Event.bodyClose)

/-- Go `type appengineHandler func(c, w, r) error`. -/
abbrev appengineHandler (σ : Type) :=
  Context σ → ResponseWriter → IncomingRequest → World σ →
    Except Panic (Option GoError) × ResponseWriter × World σ

/-- Go `(h appengineHandler) ServeHTTP(w, r)`: run the handler in the context
`c` that `appengine.NewContext(r)` returns, log a returned error with
`c.Errorf` and reply with its text through `http.Error` as a 500. -/
def appengineHandler.ServeHTTP {σ : Type} (h : appengineHandler σ) (c : Context σ)
    (w : ResponseWriter) (r : IncomingRequest) (st : World σ) :
    Except Panic Unit × ResponseWriter × World σ :=
  match h c w r st with
  | (.error p, w1, st1) => (.error p, w1, st1)
  | (.ok (some err), w1, st1) =>
    (.ok (), http.Error w1 err.Error http.StatusInternalServerError,
      st1.record (Event.Errorf err.Error))
  | (.ok none, w1, st1) => (.ok (), w1, st1)

/-- The redirects issued on a response writer. -/
def redirects : ResponseWriter → List (String × Nat)
  | [] => []
  | WriterCall.Redirect url code :: cs => (url, code) :: redirects cs
  | _ :: cs => redirects cs

/-- A text occurs inside another one. -/
def Contains (text part : String) : Prop :=
  ∃ before after : String, text = before ++ part ++ after

/-- The events recorded between two states of one run. -/
def newEvents {σ : Type} (before after : World σ) : List Event :=
  after.trace.drop before.trace.length

/-! ## Concrete platform used to evaluate the code -/

/-- External state of the demonstration platform: the cache and the clock. -/
structure DemoState where
  cache : List (String × Bytes)
  clock : Time
deriving DecidableEq, Repr

/-- A platform whose cache stores what is written, whose clock stands still,
whose identity service answers through `issue` with a token that expires 3600
seconds later, and whose urlfetch sender answers every request with `reply`. -/
def demoContext (issue : String → Except GoError String)
    (reply : Option Response × Option GoError) : Context DemoState where
  memcacheGet key s :=
    match s.cache.lookup key with
    | some v => (.ok { Key := key, Value := v, Expiration := 0 }, s)
    | none => (.error ⟨"memcache: cache miss"⟩, s)
  memcacheSet item s := (none, { s with cache := (item.Key, item.Value) :: s.cache })
  AccessToken scope s :=
    match issue scope with
    | .ok tok => (.ok (tok, s.clock + 3600 * 1000000000), s)
    | .error e => (.error e, s)
  Now s := (s.clock, s)
  urlfetch _ _ _ s := (reply, s)

/-- The initial state: empty cache, clock at `1000`, no map contents, empty trace. -/
def demoWorld : World DemoState :=
  { ext := { cache := [], clock := 1000 }, maps := fun _ _ => none, trace := [] }

/-- A sender that answers every request with the same pair. -/
def constSender (reply : Option Response × Option GoError) : RoundTripper DemoState :=
  ⟨fun _ _ s => (reply, s)⟩

/-- A request whose header map is the (so far empty) map at address `0`. -/
def demoRequest : Request :=
  { Method := "GET", URL := "https://www.googleapis.com/urlshortener/v1/url/history",
    Header := some 0, Body := none }

/-- A response with status 401. -/
def unauthorized : Response := { StatusCode := 401, Body := "Unauthorized" }

/-- An identity service that knows the scope `scope1` only, and issues `abc123` for it. -/
def demoIssue (scope : String) : Except GoError String :=
  if scope = "scope1" then .ok "abc123" else .error ⟨"unknown scope"⟩

/-- The demonstration platform with that identity service and a sender answering 401. -/
def demoPlatform : Context DemoState :=
  demoContext demoIssue (some unauthorized, none)

/-- The demonstration platform with an unavailable cache: every read and every
write fails. -/
def brokenCachePlatform : Context DemoState :=
  { demoPlatform with
    memcacheGet := fun _ s => (.error ⟨"memcache: server error"⟩, s)
    memcacheSet := fun _ s => (some ⟨"memcache: server error"⟩, s) }

/-- The body with which the remote API reports an application-level error. -/
def apiErrorBody : String :=
  "\x7b\"error\":\x7b\"code\":400,\"message\":\"bad\"\x7d\x7d"

/-- The demonstration platform whose identity service issues `abc123` for every
scope and whose urlfetch sender answers every request with status 200 and the
body `apiErrorBody`. -/
def apiErrorPlatform : Context DemoState :=
  demoContext (fun _ => .ok "abc123") (some { StatusCode := 200, Body := apiErrorBody }, none)

/-- A library for the demonstration: `json.Marshal` writes the one field of
the payload, `Post` builds a request with a fresh header map at address `0`
and sends it through the transport of the client, and the decoder knows the
body `apiErrorBody`. -/
def demoLibrary : Library DemoState where
  jsonMarshal req := .ok (bytesOf ("\x7b\"longUrl\":\"" ++ req.LongUrl ++ "\"\x7d"))
  clientPost client url ctype _ w :=
    let fresh : MapContents := fun k => if k = "Content-Type" then some [ctype] else none
    match client.Transport.RoundTrip
        { Method := "POST", URL := url, Header := some 0, Body := none }
        { w with maps := Function.update w.maps 0 fresh } with
    | (.ok (some resp, none), w1) => (.ok resp, w1)
    | (.ok (_, some err), w1) => (.error err, w1)
    | (.ok (none, none), w1) => (.error ⟨"http: no response"⟩, w1)
    | (.error _, w1) => (.error ⟨"http: transport fault"⟩, w1)
  jsonDecode body :=
    if body = apiErrorBody then .ok ⟨⟨[], 400, "bad"⟩⟩
    else .error ⟨"json: unknown body"⟩

/-- The form submission `POST /shorten` with `url=http://x`. -/
def demoSubmission : IncomingRequest :=
  { Method := "POST", Form := fun k => if k = "url" then "http://x" else "" }

/-- The demonstration platform whose identity service returns the token with
the zero `time.Time` (1 January of year 1) as its expiry. -/
def zeroExpiryPlatform : Context DemoState :=
  { demoPlatform with
    AccessToken := fun _ s => (.ok ("abc123", -62135596800000000000), s) }

/-- The initial state with the clock at 1 January 2000. -/
def millenniumWorld : World DemoState :=
  { demoWorld with ext := { cache := [], clock := 946684800000000000 } }

end Goshorten

/-! ## Theorems -/

namespace Goshorten

section Helpers

variable {σ : Type}

theorem newEvents_append (w w1 : World σ) (es : List Event) (h : w1.trace = w.trace ++ es) :
    newEvents w w1 = es := by
  simp [newEvents, h]

theorem roundTrip_some (t : authorizedTransport σ) (req : Request) (w : World σ) (a : Nat)
    (h : req.Header = some a) :
    t.RoundTrip req w =
      (.ok (t.transport.RoundTrip req
          (Function.update w.maps a
            (fun k => if k = "Authorization" then some ["OAuth " ++ t.token] else w.maps a k))
          w.ext).1,
        { ext := (t.transport.RoundTrip req
            (Function.update w.maps a
              (fun k => if k = "Authorization" then some ["OAuth " ++ t.token] else w.maps a k))
            w.ext).2,
          maps := Function.update w.maps a
            (fun k => if k = "Authorization" then some ["OAuth " ++ t.token] else w.maps a k),
          trace := w.trace ++ [Event.roundTrip req
            (Function.update w.maps a
              (fun k => if k = "Authorization" then some ["OAuth " ++ t.token]
                else w.maps a k))] }) := by
  simp [authorizedTransport.RoundTrip, Header.Set, h]

theorem accessToken_hit (c : Context σ) (scope : String) (w : World σ) (item : Item) (s : σ)
    (h : c.memcacheGet "token" w.ext = (.ok item, s)) :
    accessToken c scope w =
      ((stringOf item.Value, none),
        { ext := s, maps := w.maps, trace := w.trace ++ [Event.memcacheGet "token"] }) := by
  simp [accessToken, memcache.Get, h]

theorem accessToken_refused (c : Context σ) (scope : String) (w : World σ) (e0 e : GoError)
    (s1 s2 : σ) (h : c.memcacheGet "token" w.ext = (.error e0, s1))
    (hid : c.AccessToken scope s1 = (.error e, s2)) :
    accessToken c scope w =
      (("", some e),
        { ext := s2, maps := w.maps,
          trace := w.trace ++ [Event.memcacheGet "token", Event.appengineAccessToken scope] }) := by
  simp [accessToken, memcache.Get, appengine.AccessToken, h, hid]

theorem accessToken_fresh (c : Context σ) (scope : String) (w : World σ) (e0 : GoError)
    (s1 s2 : σ) (tok : String) (expiry : Time)
    (h : c.memcacheGet "token" w.ext = (.error e0, s1))
    (hid : c.AccessToken scope s1 = (.ok (tok, expiry), s2)) :
    accessToken c scope w =
      ((tok, none),
        { ext := (c.memcacheSet
            { Key := "token", Value := bytesOf tok,
              Expiration := Time.Sub expiry (c.Now s2).1 }
            (c.Now s2).2).2,
          maps := w.maps,
          trace := w.trace ++ [Event.memcacheGet "token", Event.appengineAccessToken scope,
            Event.timeNow,
            Event.memcacheSet
              { Key := "token", Value := bytesOf tok,
                Expiration := Time.Sub expiry (c.Now s2).1 }] }) := by
  simp [accessToken, memcache.Get, appengine.AccessToken, time.Now, memcache.Set, h, hid]

theorem wrapInt64_of_fits (x : Int) (h1 : minDuration ≤ x) (h2 : x ≤ maxDuration) :
    wrapInt64 x = x := by
  have h1n : (-9223372036854775808 : Int) ≤ x := h1
  have h2n : x ≤ (9223372036854775807 : Int) := h2
  show (x + 9223372036854775808) % 18446744073709551616 - 9223372036854775808 = x
  omega

theorem wrapInt64_fits (x : Int) : minDuration ≤ wrapInt64 x ∧ wrapInt64 x ≤ maxDuration := by
  show (-9223372036854775808 : Int) ≤
      (x + 9223372036854775808) % 18446744073709551616 - 9223372036854775808 ∧
    (x + 9223372036854775808) % 18446744073709551616 - 9223372036854775808 ≤
      (9223372036854775807 : Int)
  omega

theorem sub_of_fits (t u : Int) (h1 : minDuration ≤ t - u) (h2 : t - u ≤ maxDuration) :
    Time.Sub t u = t - u := by
  have hw := wrapInt64_of_fits (t - u) h1 h2
  have hadd : u + (t - u) = t := by omega
  unfold Time.Sub
  simp only [hw]
  rw [if_pos hadd]

theorem sub_of_above (t u : Int) (h : maxDuration < t - u) : Time.Sub t u = maxDuration := by
  have hw : wrapInt64 (t - u) ≤ (9223372036854775807 : Int) := (wrapInt64_fits (t - u)).2
  have hn : (9223372036854775807 : Int) < t - u := h
  have h1 : ¬ (u + wrapInt64 (t - u) = t) := by omega
  have h2 : ¬ (t < u) := by omega
  unfold Time.Sub
  simp only
  rw [if_neg h1, if_neg h2]

theorem sub_of_below (t u : Int) (h : t - u < minDuration) : Time.Sub t u = minDuration := by
  have hw : (-9223372036854775808 : Int) ≤ wrapInt64 (t - u) := (wrapInt64_fits (t - u)).1
  have hn : t - u < (-9223372036854775808 : Int) := h
  have h1 : ¬ (u + wrapInt64 (t - u) = t) := by omega
  have h2 : t < u := by omega
  unfold Time.Sub
  simp only
  rw [if_neg h1, if_pos h2]

end Helpers

end Goshorten

namespace Goshorten

section Transport

variable {σ : Type}

/-- C1 (evaluation at the failing input): with token `abc123` and a request
whose header map is the empty map at address `0`, the call `RoundTrip`
returns normally and the map of the caller's own request, which had no
`Authorization` entry before the call, holds `OAuth abc123` after it. -/
theorem roundTrip_writes_into_caller_header :
    demoRequest.Header = some 0 ∧
    headerValues demoRequest demoWorld.maps "Authorization" = none ∧
    (authorizedTransport.RoundTrip ⟨constSender (some unauthorized, none), "abc123"⟩
        demoRequest demoWorld).1 = .ok (some unauthorized, none) ∧
    headerValues demoRequest
      (authorizedTransport.RoundTrip ⟨constSender (some unauthorized, none), "abc123"⟩
        demoRequest demoWorld).2.maps "Authorization" = some ["OAuth abc123"] := by
  refine ⟨rfl, rfl, rfl, ?_⟩
  rw [roundTrip_some _ _ _ 0 rfl]
  simp [headerValues, demoRequest]

end Transport

end Goshorten

namespace Goshorten

section TokenProvider

variable {σ : Type}

/-- C3: for every scope, when the cache read of key `token` succeeds with an
item of value `v`, `accessToken` returns `(string(v), nil)`; its only external
call is that read: no call to the identity facility and no cache write. -/
theorem accessToken_cache_hit (c : Context σ) (scope : String) (w : World σ) (item : Item)
    (s : σ) (h : c.memcacheGet "token" w.ext = (.ok item, s)) :
    (accessToken c scope w).1 = (stringOf item.Value, none) ∧
    identityCalls (newEvents w (accessToken c scope w).2) = [] ∧
    cacheWrites (newEvents w (accessToken c scope w).2) = [] ∧
    newEvents w (accessToken c scope w).2 = [Event.memcacheGet "token"] := by
  rw [accessToken_hit c scope w item s h, newEvents_append w _ _ rfl]
  exact ⟨rfl, rfl, rfl, rfl⟩

/-- C3, witness: a cache that holds `cached` under `token` answers any scope
with `cached`, without asking the identity service. -/
theorem accessToken_cache_hit_witness :
    (accessToken demoPlatform "scope1"
        { demoWorld with ext := { cache := [("token", bytesOf "cached")], clock := 1000 } }).1 =
      (stringOf (bytesOf "cached"), none) ∧
    identityCalls (newEvents
        { demoWorld with ext := { cache := [("token", bytesOf "cached")], clock := 1000 } }
        (accessToken demoPlatform "scope1"
          { demoWorld with
            ext := { cache := [("token", bytesOf "cached")], clock := 1000 } }).2) = [] :=
  ⟨(accessToken_cache_hit demoPlatform "scope1"
      { demoWorld with ext := { cache := [("token", bytesOf "cached")], clock := 1000 } }
      { Key := "token", Value := bytesOf "cached", Expiration := 0 }
      { cache := [("token", bytesOf "cached")], clock := 1000 } rfl).1,
   (accessToken_cache_hit demoPlatform "scope1"
      { demoWorld with ext := { cache := [("token", bytesOf "cached")], clock := 1000 } }
      { Key := "token", Value := bytesOf "cached", Expiration := 0 }
      { cache := [("token", bytesOf "cached")], clock := 1000 } rfl).2.1⟩

/-- C4: for every scope, when the cache read of key `token` fails with any
error, `accessToken` calls the identity facility exactly once, with that
scope; if the call fails with `e` the result is `("", e)` and no cache write
is made; if it succeeds with `tok` the result is `(tok, nil)`. -/
theorem accessToken_cache_miss (c : Context σ) (scope : String) (w : World σ) (e0 : GoError)
    (s1 : σ) (h : c.memcacheGet "token" w.ext = (.error e0, s1)) :
    identityCalls (newEvents w (accessToken c scope w).2) = [scope] ∧
    (∀ e s2, c.AccessToken scope s1 = (.error e, s2) →
      (accessToken c scope w).1 = ("", some e) ∧
      cacheWrites (newEvents w (accessToken c scope w).2) = []) ∧
    (∀ tok expiry s2, c.AccessToken scope s1 = (.ok (tok, expiry), s2) →
      (accessToken c scope w).1 = (tok, none)) := by
  refine ⟨?_, ?_, ?_⟩
  · rcases hid : c.AccessToken scope s1 with ⟨r, s2⟩
    cases r with
    | error e =>
      rw [accessToken_refused c scope w e0 e s1 s2 h hid, newEvents_append w _ _ rfl]
      rfl
    | ok p =>
      rw [accessToken_fresh c scope w e0 s1 s2 p.1 p.2 h hid, newEvents_append w _ _ rfl]
      rfl
  · intro e s2 hid
    rw [accessToken_refused c scope w e0 e s1 s2 h hid, newEvents_append w _ _ rfl]
    exact ⟨rfl, rfl⟩
  · intro tok expiry s2 hid
    rw [accessToken_fresh c scope w e0 s1 s2 tok expiry h hid]

/-- C4, witness: on an empty cache the identity service is asked once, for the
scope of the call, and its refusal of an unknown scope comes back unchanged. -/
theorem accessToken_cache_miss_witness :
    identityCalls (newEvents demoWorld (accessToken demoPlatform "other" demoWorld).2) =
      ["other"] ∧
    (accessToken demoPlatform "other" demoWorld).1 = ("", some ⟨"unknown scope"⟩) ∧
    (accessToken demoPlatform "scope1" demoWorld).1 = ("abc123", none) :=
  ⟨(accessToken_cache_miss demoPlatform "other" demoWorld ⟨"memcache: cache miss"⟩
      demoWorld.ext rfl).1,
   ((accessToken_cache_miss demoPlatform "other" demoWorld ⟨"memcache: cache miss"⟩
      demoWorld.ext rfl).2.1 ⟨"unknown scope"⟩ demoWorld.ext rfl).1,
   (accessToken_cache_miss demoPlatform "scope1" demoWorld ⟨"memcache: cache miss"⟩
      demoWorld.ext rfl).2.2 "abc123" (1000 + 3600 * 1000000000) demoWorld.ext
      rfl⟩

/-- C5 (as stated, refuted): the identity service returns the zero `time.Time`
as expiry while the clock reads 1 January 2000; the one cache write carries
the expiration `minDuration`, which is not `expiry - now`. -/
theorem accessToken_cache_write_saturates :
    zeroExpiryPlatform.AccessToken "scope1" millenniumWorld.ext =
      (.ok ("abc123", -62135596800000000000), millenniumWorld.ext) ∧
    zeroExpiryPlatform.Now millenniumWorld.ext = (946684800000000000, millenniumWorld.ext) ∧
    cacheWrites (newEvents millenniumWorld
        (accessToken zeroExpiryPlatform "scope1" millenniumWorld).2) =
      [{ Key := "token", Value := bytesOf "abc123", Expiration := -9223372036854775808 }] ∧
    ¬ (cacheWrites (newEvents millenniumWorld
        (accessToken zeroExpiryPlatform "scope1" millenniumWorld).2) =
      [{ Key := "token", Value := bytesOf "abc123",
         Expiration := -62135596800000000000 - 946684800000000000 }]) := by
  have hw : cacheWrites (newEvents millenniumWorld
        (accessToken zeroExpiryPlatform "scope1" millenniumWorld).2) =
      [{ Key := "token", Value := bytesOf "abc123", Expiration := -9223372036854775808 }] := by
    rw [accessToken_fresh zeroExpiryPlatform "scope1" millenniumWorld ⟨"memcache: cache miss"⟩
      millenniumWorld.ext millenniumWorld.ext "abc123" (-62135596800000000000) rfl rfl,
      newEvents_append millenniumWorld _ _ rfl]
    have hsub : Time.Sub (-62135596800000000000) (zeroExpiryPlatform.Now millenniumWorld.ext).1 =
        -9223372036854775808 := by decide
    simp only [cacheWrites, hsub]
  refine ⟨rfl, rfl, hw, ?_⟩
  rw [hw]
  decide

/-- C5 (amended): after a failed cache read and a successful identity call
returning `(tok, expiry)`, `accessToken` makes exactly one cache write, of the
item with key `token`, value `[]byte(tok)` and expiration `expiry.Sub(now)`,
where `now` is the clock read made for it: that is `expiry - now` when the
difference fits in an `int64` duration, `maxDuration` when it lies above and
`minDuration` when it lies below; and whatever that write answers, the result
is `(tok, nil)`. -/
theorem accessToken_cache_write (c : Context σ) (scope : String) (w : World σ) (e0 : GoError)
    (s1 s2 s3 : σ) (tok : String) (expiry now : Time)
    (h : c.memcacheGet "token" w.ext = (.error e0, s1))
    (hid : c.AccessToken scope s1 = (.ok (tok, expiry), s2))
    (hnow : c.Now s2 = (now, s3)) :
    cacheWrites (newEvents w (accessToken c scope w).2) =
      [{ Key := "token", Value := bytesOf tok, Expiration := Time.Sub expiry now }] ∧
    (minDuration ≤ expiry - now → expiry - now ≤ maxDuration →
      Time.Sub expiry now = expiry - now) ∧
    (maxDuration < expiry - now → Time.Sub expiry now = maxDuration) ∧
    (expiry - now < minDuration → Time.Sub expiry now = minDuration) ∧
    ∀ (outcome : Option GoError) (s4 : σ),
      c.memcacheSet { Key := "token", Value := bytesOf tok, Expiration := Time.Sub expiry now }
        s3 = (outcome, s4) →
      (accessToken c scope w).1 = (tok, none) ∧ (accessToken c scope w).2.ext = s4 := by
  rw [accessToken_fresh c scope w e0 s1 s2 tok expiry h hid, newEvents_append w _ _ rfl, hnow]
  refine ⟨rfl, sub_of_fits expiry now, sub_of_above expiry now, sub_of_below expiry now, ?_⟩
  intro outcome s4 hset
  simp [hset]

/-- C5 (amended), witness: with an unavailable cache the token `abc123`,
expiring 3600 seconds after the clock reading `1000`, is written once with
that remaining lifetime, the write fails, and the result is still
`(abc123, nil)`. -/
theorem accessToken_cache_write_witness :
    cacheWrites (newEvents demoWorld (accessToken brokenCachePlatform "scope1" demoWorld).2) =
      [{ Key := "token", Value := bytesOf "abc123",
         Expiration := Time.Sub (1000 + 3600 * 1000000000) 1000 }] ∧
    Time.Sub (1000 + 3600 * 1000000000) 1000 = 3600 * 1000000000 ∧
    brokenCachePlatform.memcacheSet
        { Key := "token", Value := bytesOf "abc123",
          Expiration := Time.Sub (1000 + 3600 * 1000000000) 1000 } demoWorld.ext =
      (some ⟨"memcache: server error"⟩, demoWorld.ext) ∧
    (accessToken brokenCachePlatform "scope1" demoWorld).1 = ("abc123", none) :=
  ⟨(accessToken_cache_write brokenCachePlatform "scope1" demoWorld ⟨"memcache: server error"⟩
      demoWorld.ext demoWorld.ext demoWorld.ext "abc123" (1000 + 3600 * 1000000000) 1000
      rfl rfl rfl).1,
   by decide,
   rfl,
   ((accessToken_cache_write brokenCachePlatform "scope1" demoWorld ⟨"memcache: server error"⟩
      demoWorld.ext demoWorld.ext demoWorld.ext "abc123" (1000 + 3600 * 1000000000) 1000
      rfl rfl rfl).2.2.2.2 (some ⟨"memcache: server error"⟩) demoWorld.ext rfl).1⟩

/-- C9: the cache slot ignores the scope.  Starting from a cache whose read
misses, whose write of the fresh token succeeds and whose next read returns
the value written, `accessToken A` followed by `accessToken B` answers `B`
with the token issued for `A`, and the identity facility is called once in
total, for `A`.  And on a cache hit `accessToken` does the same for every scope. -/
theorem accessToken_scope_ignored (c : Context σ) (A B : String) (w : World σ) (e0 : GoError)
    (s1 s2 s3 s4 s5 : σ) (tokA : String) (expiry now : Time) (item : Item)
    (h1 : c.memcacheGet "token" w.ext = (.error e0, s1))
    (h2 : c.AccessToken A s1 = (.ok (tokA, expiry), s2))
    (h3 : c.Now s2 = (now, s3))
    (h4 : c.memcacheSet
            { Key := "token", Value := bytesOf tokA, Expiration := Time.Sub expiry now }
            s3 = (none, s4))
    (h5 : c.memcacheGet "token" s4 = (.ok item, s5))
    (h6 : item.Value = bytesOf tokA) :
    (accessToken c A w).1 = (tokA, none) ∧
    (accessToken c B (accessToken c A w).2).1 = (tokA, none) ∧
    identityCalls (newEvents w (accessToken c B (accessToken c A w).2).2) = [A] ∧
    (∀ (w0 : World σ) (item0 : Item) (s0 : σ), c.memcacheGet "token" w0.ext = (.ok item0, s0) →
      accessToken c A w0 = accessToken c B w0) := by
  have hA := accessToken_fresh c A w e0 s1 s2 tokA expiry h1 h2
  rw [h3] at hA
  simp only [h4] at hA
  have hB := accessToken_hit c B (accessToken c A w).2 item s5 (by rw [hA]; exact h5)
  refine ⟨by rw [hA], ?_, ?_, ?_⟩
  · rw [hB, h6]
    rfl
  · rw [hB, hA]
    rw [newEvents_append w _
      [Event.memcacheGet "token", Event.appengineAccessToken A, Event.timeNow,
        Event.memcacheSet
          { Key := "token", Value := bytesOf tokA, Expiration := Time.Sub expiry now },
        Event.memcacheGet "token"] (by simp)]
    rfl
  · intro w0 item0 s0 h0
    rw [accessToken_hit c A w0 item0 s0 h0, accessToken_hit c B w0 item0 s0 h0]

/-- C9, witness: on the demonstration platform the token `abc123` issued for
`scope1` is the answer to a later call for the scope `other`, which the
identity service would have refused. -/
theorem accessToken_scope_ignored_witness :
    (accessToken demoPlatform "other" (accessToken demoPlatform "scope1" demoWorld).2).1 =
      ("abc123", none) ∧
    identityCalls (newEvents demoWorld
      (accessToken demoPlatform "other" (accessToken demoPlatform "scope1" demoWorld).2).2) =
      ["scope1"] ∧
    demoPlatform.AccessToken "other" demoWorld.ext = (.error ⟨"unknown scope"⟩, demoWorld.ext) :=
  ⟨(accessToken_scope_ignored demoPlatform "scope1" "other" demoWorld
      ⟨"memcache: cache miss"⟩ demoWorld.ext demoWorld.ext demoWorld.ext
      { cache := [("token", bytesOf "abc123")], clock := 1000 }
      { cache := [("token", bytesOf "abc123")], clock := 1000 }
      "abc123" (1000 + 3600 * 1000000000) 1000
      { Key := "token", Value := bytesOf "abc123", Expiration := 0 }
      rfl rfl rfl rfl rfl rfl).2.1,
   (accessToken_scope_ignored demoPlatform "scope1" "other" demoWorld
      ⟨"memcache: cache miss"⟩ demoWorld.ext demoWorld.ext demoWorld.ext
      { cache := [("token", bytesOf "abc123")], clock := 1000 }
      { cache := [("token", bytesOf "abc123")], clock := 1000 }
      "abc123" (1000 + 3600 * 1000000000) 1000
      { Key := "token", Value := bytesOf "abc123", Expiration := 0 }
      rfl rfl rfl rfl rfl rfl).2.2.1,
   rfl⟩

end TokenProvider

end Goshorten

namespace Goshorten

section ClientFactory

variable {σ : Type}

/-- C7: end to end, for every token `T` and scope `S`.  When the cache read
fails and the identity facility returns `T` for `S`, `authorizedClient S`
returns no error and a client whose transport is the `authorizedTransport`
that wraps the urlfetch transport (deadline 0, certificates checked) and is
bound to `T`; every request with a header map sent through that transport
reaches the urlfetch sender once, carrying `Authorization: "OAuth " ++ T`, and
the sender's answer is returned.  When the token provider fails with `e`,
`authorizedClient` returns no client and the error `e`. -/
theorem authorizedClient_end_to_end (c : Context σ) (S : String) (w : World σ) :
    (∀ (T : String) (expiry : Time) (e0 : GoError) (s1 s2 : σ),
      c.memcacheGet "token" w.ext = (.error e0, s1) →
      c.AccessToken S s1 = (.ok (T, expiry), s2) →
      ∃ client : Client σ, (authorizedClient c S w).1 = (some client, none) ∧
        client.Transport = ⟨urlfetch.Transport.roundTripper c ⟨0, false⟩, T⟩ ∧
        ∀ (req : Request) (a : Nat) (w1 : World σ), req.Header = some a →
          ∃ maps, newEvents w1 (client.Transport.RoundTrip req w1).2 =
              [Event.roundTrip req maps] ∧
            headerValues req maps "Authorization" = some ["OAuth " ++ T] ∧
            (client.Transport.RoundTrip req w1).1 =
              .ok (c.urlfetch ⟨0, false⟩ req maps w1.ext).1) ∧
    (∀ e : GoError, (accessToken c S w).1.2 = some e →
      (authorizedClient c S w).1 = (none, some e) ∧
      (authorizedClient c S w).2 = (accessToken c S w).2) := by
  constructor
  · intro T expiry e0 s1 s2 h1 h2
    refine ⟨⟨urlfetch.Transport.roundTripper c ⟨0, false⟩, T⟩, ?_, rfl, ?_⟩
    · simp [authorizedClient, accessToken_fresh c S w e0 s1 s2 T expiry h1 h2]
    · intro req a w1 hh
      rw [roundTrip_some _ req w1 a hh]
      refine ⟨_, newEvents_append w1 _ _ rfl, ?_, rfl⟩
      simp [headerValues, hh]
  · intro e he
    rcases hacc : accessToken c S w with ⟨⟨tok, err⟩, w1⟩
    rw [hacc] at he
    simp only at he
    subst he
    simp [authorizedClient, hacc]

/-- C7, witness: the identity service returns `abc123`, expiring 3600 seconds
from now, for `scope1`; the client made for `scope1` sends its next request
with `Authorization: OAuth abc123`.  For a scope the service refuses, the
refusal is what `authorizedClient` returns. -/
theorem authorizedClient_end_to_end_witness :
    (∃ (client : Client DemoState) (maps : Nat → MapContents),
      (authorizedClient demoPlatform "scope1" demoWorld).1 = (some client, none) ∧
      newEvents demoWorld (client.Transport.RoundTrip demoRequest demoWorld).2 =
        [Event.roundTrip demoRequest maps] ∧
      headerValues demoRequest maps "Authorization" = some ["OAuth " ++ "abc123"]) ∧
    (authorizedClient demoPlatform "other" demoWorld).1 = (none, some ⟨"unknown scope"⟩) := by
  constructor
  · obtain ⟨client, h1, _, h3⟩ :=
      (authorizedClient_end_to_end demoPlatform "scope1" demoWorld).1 "abc123"
        (1000 + 3600 * 1000000000) ⟨"memcache: cache miss"⟩ demoWorld.ext demoWorld.ext rfl rfl
    obtain ⟨maps, h4, h5, _⟩ := h3 demoRequest 0 demoWorld rfl
    exact ⟨client, maps, h1, h4, h5⟩
  · exact ((authorizedClient_end_to_end demoPlatform "other" demoWorld).2
      ⟨"unknown scope"⟩ rfl).1

end ClientFactory

end Goshorten

namespace Goshorten

section Handlers

variable {σ : Type}

theorem redirects_append_error (w : ResponseWriter) (text : String) (code : Nat) :
    redirects (w ++ [WriterCall.Error text code]) = redirects w := by
  induction w with
  | nil => rfl
  | cons x xs ih =>
    cases x with
    | Redirect url rc => simp [redirects, ih]
    | Error t ec => simp [redirects, ih]

theorem contains_fmtErrorBody (context : String) (e : ErrorBody) :
    Contains (fmt.Errorf context (fmtErrorBody e)).Error e.Message :=
  ⟨context ++ ("\x7b" ++ fmtErrors e.Errors ++ " " ++ toString e.Code ++ " "), "\x7d", by
    simp [fmt.Errorf, fmtErrorBody, String.append_assoc]⟩

/-- C8: when the authorized client is made, the post succeeds and the body
decodes to a response whose `error.code` is not zero, `shorten` returns an
error whose text contains that response's `error.message` and makes no call
on the response writer, so no redirect is issued; the wrapper `ServeHTTP` then
makes exactly one call on the writer: `http.Error` with that error text and
status 500. -/
theorem shorten_api_error (lib : Library σ) (c : Context σ) (w : ResponseWriter)
    (r : IncomingRequest) (st st1 st2 : World σ) (client : Client σ) (body : Bytes)
    (resp : Response) (result : response)
    (hc : authorizedClient c "https://www.googleapis.com/auth/urlshortener" st =
      ((some client, none), st1))
    (hm : lib.jsonMarshal { LongUrl := r.FormValue "url" } = .ok body)
    (hp : lib.clientPost client "https://www.googleapis.com/urlshortener/v1/url"
      "application/json" body st1 = (.ok resp, st2))
    (hd : lib.jsonDecode resp.Body = .ok result)
    (hcode : result.Error.Code ≠ 0) :
    ∃ err : GoError, (shorten lib c w r st).1 = .ok (some err) ∧
      Contains err.Error result.Error.Message ∧
      (shorten lib c w r st).2.1 = w ∧
      (appengineHandler.ServeHTTP (shorten lib) c w r st).1 = .ok () ∧
      (appengineHandler.ServeHTTP (shorten lib) c w r st).2.1 =
        w ++ [WriterCall.Error err.Error 500] ∧
      redirects (appengineHandler.ServeHTTP (shorten lib) c w r st).2.1 = redirects w := by
  have hs : shorten lib c w r st =
      (.ok (some (fmt.Errorf "urlshortener API error: " (fmtErrorBody result.Error))), w,
        ((st2.record (Event.Infof ("urlshortener API response: " ++ fmtResponse result))).record
          Event.bodyClose)) := by
    simp [shorten, hc, hm, hp, hd, hcode]
  refine ⟨fmt.Errorf "urlshortener API error: " (fmtErrorBody result.Error), ?_, ?_, ?_, ?_, ?_, ?_⟩
  · rw [hs]
  · exact contains_fmtErrorBody _ _
  · rw [hs]
  · simp [appengineHandler.ServeHTTP, hs]
  · simp [appengineHandler.ServeHTTP, hs, http.Error, http.StatusInternalServerError]
  · simp [appengineHandler.ServeHTTP, hs, http.Error, redirects_append_error]

/-- C8, witness: the remote API answers the post of `http://x` with
`apiErrorBody` (code 400, message `bad`); `shorten` returns an error whose
text contains `bad`, and the only call on the response writer is `http.Error`
with that text and status 500. -/
theorem shorten_api_error_witness :
    ∃ err : GoError,
      (shorten demoLibrary apiErrorPlatform [] demoSubmission demoWorld).1 = .ok (some err) ∧
      Contains err.Error "bad" ∧
      (appengineHandler.ServeHTTP (shorten demoLibrary) apiErrorPlatform [] demoSubmission
        demoWorld).2.1 = [WriterCall.Error err.Error 500] ∧
      (appengineHandler.ServeHTTP (shorten demoLibrary) apiErrorPlatform [] demoSubmission
        demoWorld).2.1 = [WriterCall.Error "urlshortener API error: \x7b[] 400 bad\x7d" 500] := by
  obtain ⟨err, h1, h2, _, _, h5, _⟩ :=
    shorten_api_error demoLibrary apiErrorPlatform [] demoSubmission demoWorld
      (authorizedClient apiErrorPlatform "https://www.googleapis.com/auth/urlshortener"
        demoWorld).2
      (demoLibrary.clientPost
        ⟨⟨urlfetch.Transport.roundTripper apiErrorPlatform ⟨0, false⟩, "abc123"⟩⟩
        "https://www.googleapis.com/urlshortener/v1/url" "application/json"
        (bytesOf "\x7b\"longUrl\":\"http://x\"\x7d")
        (authorizedClient apiErrorPlatform "https://www.googleapis.com/auth/urlshortener"
          demoWorld).2).2
      ⟨⟨urlfetch.Transport.roundTripper apiErrorPlatform ⟨0, false⟩, "abc123"⟩⟩
      (bytesOf "\x7b\"longUrl\":\"http://x\"\x7d")
      { StatusCode := 200, Body := apiErrorBody }
      ⟨⟨[], 400, "bad"⟩⟩
      rfl rfl rfl rfl (by decide)
  exact ⟨err, h1, h2, h5, by decide⟩

end Handlers

end Goshorten
